import Mathlib

/-!
Shallow embedding of the OAuth2 credential and token lifecycle subsystem of
the softleo personal-assistant MCP server (TypeScript sources under src/).

Modelling conventions:
- JavaScript string-ish values are `Option String`: `none` is `undefined`/`null`,
  `some ""` is the empty string; both are falsy (`truthyS`).
- `a || b` on such values is `jsOr`; `configManager.getValue` (CLI arg, env var,
  default `""`) is `getValue`.
- On-disk JSON files are `JFile α`: absent, malformed (carrying the message of
  the `SyntaxError` that `JSON.parse` would throw), or a parsed record.
- Functions that may throw return `Except`; a `try`/`catch` in the source is a
  `match` on the `Except`.
- Side effects (token refresh exchanges, credential file writes) are returned
  as explicit effect traces.
- `Date.now()` is a parameter `now : Int`; the outcome of a token-endpoint
  refresh exchange is a parameter of type `Except String Credentials`.
-/

namespace PA

instance {ε α : Type} [DecidableEq ε] [DecidableEq α] : DecidableEq (Except ε α) :=
  fun x y =>
    match x, y with
    | .ok a, .ok b =>
      if h : a = b then .isTrue (by rw [h]) else .isFalse (by intro hc; cases hc; exact h rfl)
    | .error a, .error b =>
      if h : a = b then .isTrue (by rw [h]) else .isFalse (by intro hc; cases hc; exact h rfl)
    | .ok _, .error _ => .isFalse (by intro hc; cases hc)
    | .error _, .ok _ => .isFalse (by intro hc; cases hc)

/-- JavaScript truthiness for string-ish values: `undefined`, `null` and the
empty string are falsy. -/
def truthyS : Option String → Bool
  | none => false
  | some s => !(s == "")

/-- JavaScript `a || b` on string-ish values. -/
def jsOr (a b : Option String) : Option String := if truthyS a then a else b

/-- JavaScript `a || b` where the right operand is a plain string. -/
def jsOrStr (a : Option String) (b : String) : String :=
  match a with
  | some s => if s == "" then b else s
  | none => b

/-- `ConfigManager.getValue`: `cliArgs[key] || process.env[key] || "" `. -/
def getValue (cliArg envVar : Option String) : String :=
  jsOrStr cliArg (jsOrStr envVar "")

/-- Whether the pattern list is an initial segment of the text list. -/
def charsStartWith : List Char → List Char → Bool
  | [], _ => true
  | _ :: _, [] => false
  | p :: ps, c :: cs => p == c && charsStartWith ps cs

/-- Whether the pattern occurs as a contiguous sublist of the text. -/
def charsContains : List Char → List Char → Bool
  | [], pat => pat.isEmpty
  | c :: cs, pat => charsStartWith pat (c :: cs) || charsContains cs pat

/-- JavaScript `String.prototype.includes`. -/
def strContains (s pat : String) : Bool := charsContains s.data pat.data

/-- A thrown JavaScript error as the tool wrappers inspect it: a message and an
optional numeric `code`. -/
structure JsError where
  message : String
  code : Option Nat
deriving DecidableEq, Repr

/-- State of one on-disk JSON file: absent, present but malformed (with the
parse-error message), or parsed into a record. -/
inductive JFile (α : Type) where
  | absent
  | malformed (msg : String)
  | ok (v : α)
deriving DecidableEq, Repr

/-- The uniform response of a tool wrapper: the operation result unchanged, or
an error envelope with a human-readable message. -/
inductive ToolOutcome where
  | success (payload : String)
  | errorEnvelope (msg : String)
deriving DecidableEq, Repr

end PA

namespace PA.Google

/-- CLI arguments and environment variables feeding
`configManager.getGoogleOAuthConfig`. -/
structure GoogleEnv where
  cliClientId : Option String
  envClientId : Option String
  cliClientSecret : Option String
  envClientSecret : Option String
  cliRefreshToken : Option String
  envRefreshToken : Option String
deriving DecidableEq, Repr

/-- Result of `configManager.getGoogleOAuthConfig()` (plain strings, possibly
empty). -/
structure GoogleOAuthConfig where
  clientId : String
  clientSecret : String
  refreshToken : String
deriving DecidableEq, Repr

/-- `configManager.getGoogleOAuthConfig`. -/
def getGoogleOAuthConfig (e : GoogleEnv) : GoogleOAuthConfig :=
  { clientId := getValue e.cliClientId e.envClientId
    clientSecret := getValue e.cliClientSecret e.envClientSecret
    refreshToken := getValue e.cliRefreshToken e.envRefreshToken }

/-- The call-scoped override map (`queryConfig`) fields read by the Google
provider. -/
structure GoogleQueryConfig where
  GOOGLE_CLIENT_ID : Option String
  GOOGLE_CLIENT_SECRET : Option String
  GOOGLE_REFRESH_TOKEN : Option String
deriving DecidableEq, Repr

/-- A resolved Google credential tuple (fields may be `undefined` on the
file-based path, which performs no completeness check). -/
structure GoogleCreds where
  clientId : Option String
  clientSecret : Option String
  refreshToken : Option String
deriving DecidableEq, Repr

/-- `getEnvBasedCredentials` from src/src/oauth/providers/google.ts:
override field-by-field over `getGoogleOAuthConfig`, requiring all of
clientId, clientSecret and refreshToken to be truthy. -/
def getEnvBasedCredentials (qc : Option GoogleQueryConfig) (e : GoogleEnv) :
    Option GoogleCreds :=
  let googleConfig := getGoogleOAuthConfig e
  let clientId := jsOr (qc.bind (·.GOOGLE_CLIENT_ID)) (some googleConfig.clientId)
  let clientSecret :=
    jsOr (qc.bind (·.GOOGLE_CLIENT_SECRET)) (some googleConfig.clientSecret)
  let refreshToken :=
    jsOr (qc.bind (·.GOOGLE_REFRESH_TOKEN)) (some googleConfig.refreshToken)
  if !(truthyS clientId) || !(truthyS clientSecret) || !(truthyS refreshToken) then
    none
  else
    some { clientId := clientId, clientSecret := clientSecret, refreshToken := refreshToken }

/-- Parsed `gcp-oauth.keys.json`: `installed`/`web` sections with
`client_id`/`client_secret`. -/
structure GoogleKeysFile where
  installed_client_id : Option String
  installed_client_secret : Option String
  web_client_id : Option String
  web_client_secret : Option String
deriving DecidableEq, Repr

/-- Parsed `google-credentials.json` as read by `getFileBasedCredentials`
(only `refresh_token` is consulted there). -/
structure GoogleCredsFile where
  refresh_token : Option String
deriving DecidableEq, Repr

/-- `getFileBasedCredentials` from google.ts: read the keys file (absent file
yields `null`; `JSON.parse` of a malformed file throws), read the persisted
credentials file for a refresh token (malformed file also throws here — there
is no local `try`), and return the tuple without checking completeness. -/
def getFileBasedCredentials (keys : JFile GoogleKeysFile)
    (credsFile : JFile GoogleCredsFile) : Except String (Option GoogleCreds) :=
  match keys with
  | .absent => .ok none
  | .malformed m => .error m
  | .ok parsedKeys =>
    let clientId := jsOr parsedKeys.installed_client_id parsedKeys.web_client_id
    let clientSecret :=
      jsOr parsedKeys.installed_client_secret parsedKeys.web_client_secret
    match credsFile with
    | .absent =>
      .ok (some { clientId := clientId, clientSecret := clientSecret, refreshToken := none })
    | .malformed m => .error m
    | .ok tokenData =>
      .ok (some { clientId := clientId, clientSecret := clientSecret,
                  refreshToken := tokenData.refresh_token })

/-- The credential-source resolution inside `createOAuth2Client`:
`let credentials = getEnvBasedCredentials(queryConfig); if (!credentials)
credentials = getFileBasedCredentials();`. -/
def resolveGoogleCredentials (qc : Option GoogleQueryConfig) (e : GoogleEnv)
    (keys : JFile GoogleKeysFile) (credsFile : JFile GoogleCredsFile) :
    Except String (Option GoogleCreds) :=
  match getEnvBasedCredentials qc e with
  | some c => .ok (some c)
  | none => getFileBasedCredentials keys credsFile

/-- The credentials object held by a `google-auth-library` `OAuth2Client`. -/
structure Credentials where
  refresh_token : Option String := none
  access_token : Option String := none
  expiry_date : Option Int := none
deriving DecidableEq, Repr

/-- A `google-auth-library` `OAuth2Client` as this codebase uses it. Per the
library, the constructor stores the (possibly undefined) options without
validating them and initialises `credentials` to the empty object. -/
structure OAuth2Client where
  clientId : Option String
  clientSecret : Option String
  redirectUri : String
  credentials : Option Credentials
deriving DecidableEq, Repr

/-- The redirect URI built by `createOAuth2Client`. -/
def googleRedirectUri (oauthPort : Nat) : String :=
  "http://localhost:" ++ toString oauthPort ++ "/oauth2callback"

/-- `createOAuth2Client` from google.ts (as called by the tool wrappers, with
no explicit port argument, so `oauthPort` is the configured one): resolve
credentials (the whole body is inside `try`, so a parse exception from either
file yields `null`), then construct an `OAuth2Client` from the optional
fields, and set a refresh token on it only when one is truthy. Note that when
resolution yields no tuple the constructor still runs and the client is
returned. -/
def createOAuth2Client (qc : Option GoogleQueryConfig) (e : GoogleEnv)
    (keys : JFile GoogleKeysFile) (credsFile : JFile GoogleCredsFile)
    (oauthPort : Nat) : Option OAuth2Client :=
  match resolveGoogleCredentials qc e keys credsFile with
  | .error _ => none
  | .ok credentials =>
    let client : OAuth2Client :=
      { clientId := credentials.bind (·.clientId)
        clientSecret := credentials.bind (·.clientSecret)
        redirectUri := googleRedirectUri oauthPort
        credentials := some {} }
    let rt := credentials.bind (·.refreshToken)
    if truthyS rt then
      some { client with credentials := some { refresh_token := rt } }
    else
      some client

/-- Observable side effects of `validateCredentials`. -/
inductive GEffect where
  | refreshCall
  | fileWrite (path : String) (tokens : Credentials)
deriving DecidableEq, Repr

/-- `validateCredentials` from google.ts: needs refresh when `expiry_date` is
falsy (absent or `0`) or `<= Date.now()`; valid immediately otherwise; with no
refresh token it is invalid without any network call; otherwise one refresh
exchange runs (`refreshResult` is its outcome), and on success the new tokens
are set on the client and written to the credentials file at `credsPath`
before `true` is returned. Any throw is caught and yields `false`. -/
def validateCredentials (c : OAuth2Client) (now : Int)
    (refreshResult : Except String Credentials) (credsPath : String) :
    Bool × OAuth2Client × List GEffect :=
  match c.credentials with
  | none => (false, c, [])
  | some creds =>
    let needsRefresh : Bool :=
      match creds.expiry_date with
      | none => true
      | some e => e == 0 || decide (e ≤ now)
    if needsRefresh then
      if truthyS creds.refresh_token then
        match refreshResult with
        | .ok tokens =>
          (true, { c with credentials := some tokens },
            [.refreshCall, .fileWrite credsPath tokens])
        | .error _ => (false, c, [.refreshCall])
      else (false, c, [])
    else (true, c, [])

/-- The error classification in the `catch` of `handleTool`
(src/src/modules/gmail.ts; the calendar module is identical): authentication
markers produce the re-authenticate envelope, everything else the generic
envelope. There is no scope-specific branch. -/
def classifyGmailError (err : JsError) : String :=
  if strContains err.message "invalid_grant"
      || strContains err.message "refresh_token"
      || strContains err.message "invalid_client"
      || strContains err.message "unauthorized_client"
      || err.code == some 401 || err.code == some 403 then
    "Authentication failed: " ++ err.message ++
      ". Please re-authenticate by running: npx @softleolabs/pa-mcp auth"
  else
    "Tool execution failed: " ++ err.message

/-- `handleTool` from src/src/modules/gmail.ts: create the OAuth2 client (the
default and override paths both run `createOAuth2Client`), fail if it is
`null`, validate (possibly refreshing), fail if invalid, then run the wrapped
operation and classify any thrown error. -/
def gmailHandleTool (qc : Option GoogleQueryConfig) (e : GoogleEnv)
    (keys : JFile GoogleKeysFile) (credsFile : JFile GoogleCredsFile)
    (oauthPort : Nat) (now : Int) (refreshResult : Except String Credentials)
    (credsPath : String) (apiResult : Except JsError String) : ToolOutcome :=
  match createOAuth2Client qc e keys credsFile oauthPort with
  | none =>
    .errorEnvelope (classifyGmailError
      { message := "OAuth2 client could not be created, please check your credentials"
        code := none })
  | some oauth2Client =>
    if (validateCredentials oauth2Client now refreshResult credsPath).1 then
      match apiResult with
      | .ok result => .success result
      | .error err => .errorEnvelope (classifyGmailError err)
    else
      .errorEnvelope (classifyGmailError
        { message := "OAuth2 credentials are invalid, please re-authenticate"
          code := none })

end PA.Google

namespace PA.LinkedIn

open PA.Google (GoogleEnv)

/-- CLI arguments and environment variables feeding
`configManager.getLinkedInOAuthConfig`. -/
structure LinkedInEnv where
  cliClientId : Option String
  envClientId : Option String
  cliClientSecret : Option String
  envClientSecret : Option String
  cliAccessToken : Option String
  envAccessToken : Option String
  cliRefreshToken : Option String
  envRefreshToken : Option String
deriving DecidableEq, Repr

/-- Result of `configManager.getLinkedInOAuthConfig()`. -/
structure LinkedInOAuthConfig where
  clientId : String
  clientSecret : String
  accessToken : String
  refreshToken : String
deriving DecidableEq, Repr

/-- `configManager.getLinkedInOAuthConfig`. -/
def getLinkedInOAuthConfig (e : LinkedInEnv) : LinkedInOAuthConfig :=
  { clientId := getValue e.cliClientId e.envClientId
    clientSecret := getValue e.cliClientSecret e.envClientSecret
    accessToken := getValue e.cliAccessToken e.envAccessToken
    refreshToken := getValue e.cliRefreshToken e.envRefreshToken }

/-- The call-scoped override map fields read by the LinkedIn provider. -/
structure LinkedInQueryConfig where
  LINKEDIN_CLIENT_ID : Option String
  LINKEDIN_CLIENT_SECRET : Option String
  LINKEDIN_REFRESH_TOKEN : Option String
deriving DecidableEq, Repr

/-- A resolved LinkedIn credential tuple. -/
structure LinkedInCreds where
  clientId : Option String
  clientSecret : Option String
  refreshToken : Option String
deriving DecidableEq, Repr

/-- LinkedIn `getEnvBasedCredentials`: requires truthy clientId and
clientSecret only; the refresh token is carried along as-is. -/
def getEnvBasedCredentials (qc : Option LinkedInQueryConfig) (e : LinkedInEnv) :
    Option LinkedInCreds :=
  let linkedinConfig := getLinkedInOAuthConfig e
  let clientId := jsOr (qc.bind (·.LINKEDIN_CLIENT_ID)) (some linkedinConfig.clientId)
  let clientSecret :=
    jsOr (qc.bind (·.LINKEDIN_CLIENT_SECRET)) (some linkedinConfig.clientSecret)
  let refreshToken :=
    jsOr (qc.bind (·.LINKEDIN_REFRESH_TOKEN)) (some linkedinConfig.refreshToken)
  if !(truthyS clientId) || !(truthyS clientSecret) then
    none
  else
    some { clientId := clientId, clientSecret := clientSecret, refreshToken := refreshToken }

/-- Parsed `linkedin-oauth.keys.json`. -/
structure LinkedInKeysFile where
  client_id : Option String
  client_secret : Option String
deriving DecidableEq, Repr

/-- Parsed `linkedin-credentials.json`. -/
structure LinkedInCredsFile where
  access_token : Option String
  refresh_token : Option String
  expires_in : Option Int
  scope : Option String
deriving DecidableEq, Repr

/-- LinkedIn `getFileBasedCredentials`: reading/parsing the keys file is NOT
guarded (a malformed keys file throws out of this function), while the
credentials-file read for the refresh token is inside its own `try` and a
malformed credentials file just leaves the refresh token `null`. Requires
truthy client id and secret, else `null`. -/
def getFileBasedCredentials (keys : JFile LinkedInKeysFile)
    (credsFile : JFile LinkedInCredsFile) : Except String (Option LinkedInCreds) :=
  match keys with
  | .absent => .ok none
  | .malformed m => .error m
  | .ok parsedKeys =>
    let clientId := parsedKeys.client_id
    let clientSecret := parsedKeys.client_secret
    let refreshToken : Option String :=
      match credsFile with
      | .absent => none
      | .malformed _ => none
      | .ok linkedinCredentialsFile => jsOr linkedinCredentialsFile.refresh_token none
    if !(truthyS clientId) || !(truthyS clientSecret) then
      .ok none
    else
      .ok (some { clientId := clientId, clientSecret := clientSecret,
                  refreshToken := refreshToken })

/-- The plain-object client returned by `createLinkedInOAuth2Client`. -/
structure LinkedInClientHandle where
  clientId : Option String
  clientSecret : Option String
  refreshToken : Option String
  redirectUri : String
deriving DecidableEq, Repr

/-- `createLinkedInOAuth2Client` from src/unnamed/part_005: env-based
credentials first, else file-based (whose keys-file parse may throw — this
function has no `try`, so the exception propagates); `null` when neither
source yields a tuple. -/
def createLinkedInOAuth2Client (qc : Option LinkedInQueryConfig) (e : LinkedInEnv)
    (keys : JFile LinkedInKeysFile) (credsFile : JFile LinkedInCredsFile)
    (oauthPort : Nat) : Except String (Option LinkedInClientHandle) :=
  let redirectUri := "http://localhost:" ++ toString oauthPort ++ "/linkedin/callback"
  match getEnvBasedCredentials qc e with
  | some credentials =>
    .ok (some { clientId := credentials.clientId
                clientSecret := credentials.clientSecret
                refreshToken := credentials.refreshToken
                redirectUri := redirectUri })
  | none =>
    match getFileBasedCredentials keys credsFile with
    | .error m => .error m
    | .ok none => .ok none
    | .ok (some credentials) =>
      .ok (some { clientId := credentials.clientId
                  clientSecret := credentials.clientSecret
                  refreshToken := credentials.refreshToken
                  redirectUri := redirectUri })

/-- `validateLinkedInCredentials` from src/unnamed/part_005: the
`oauth2Client` argument (typed `any` in the source) is never used; validity is
file existence + successful parse + truthy `access_token`; any throw is caught
and yields `false`. The second component is the list of network effects this
function performs, which is empty — it contains no refresh exchange. -/
def validateLinkedInCredentials {α : Type} (oauth2Client : α)
    (credsFile : JFile LinkedInCredsFile) : Bool × List String :=
  match credsFile with
  | .absent => (false, [])
  | .malformed _ => (false, [])
  | .ok credentials => (truthyS credentials.access_token, [])

/-- The error classification in the `catch` of the LinkedIn `handleTool`
(src/unnamed/part_001): the authentication branch (which includes
`code === 401 || code === 403`) is checked BEFORE the scope branch. -/
def classifyLinkedInError (err : JsError) : String :=
  if strContains err.message "invalid_grant"
      || strContains err.message "refresh_token"
      || strContains err.message "invalid_client"
      || strContains err.message "unauthorized_client"
      || err.code == some 401 || err.code == some 403 then
    "Authentication failed: " ++ err.message ++
      ". Please re-authenticate by running: npx @softleolabs/pa-mcp linkedin-auth"
  else if strContains err.message "insufficient_scope"
      || strContains err.message "scope"
      || strContains err.message "permission" then
    "LinkedIn scope permission denied: " ++ err.message ++
      ". Please ensure your LinkedIn app has the required OAuth 2.0 scopes approved: r_basicprofile, w_member_social, r_organization_social, w_organization_social"
  else
    "Tool execution failed: " ++ err.message

/-- `handleTool` from src/unnamed/part_001: create the client (a throw from
the unguarded keys-file parse is caught by this wrapper's own `try`), fail if
`null`, validate against the credentials file, fail if invalid, re-read the
credentials file for the bearer tokens, run the wrapped operation, classify
any thrown error. -/
def linkedinHandleTool (qc : Option LinkedInQueryConfig) (e : LinkedInEnv)
    (keys : JFile LinkedInKeysFile) (credsFile : JFile LinkedInCredsFile)
    (oauthPort : Nat) (apiResult : Except JsError String) : ToolOutcome :=
  match createLinkedInOAuth2Client qc e keys credsFile oauthPort with
  | .error m => .errorEnvelope (classifyLinkedInError { message := m, code := none })
  | .ok none =>
    .errorEnvelope (classifyLinkedInError
      { message := "LinkedIn OAuth2 client could not be created, please check your credentials"
        code := none })
  | .ok (some oauth2Client) =>
    if (validateLinkedInCredentials oauth2Client credsFile).1 then
      match credsFile with
      | .absent =>
        .errorEnvelope (classifyLinkedInError
          { message := "LinkedIn credentials not found. Please authenticate first by running: npm run linkedin-auth"
            code := none })
      | .malformed m =>
        .errorEnvelope (classifyLinkedInError { message := m, code := none })
      | .ok _ =>
        match apiResult with
        | .ok result => .success result
        | .error err => .errorEnvelope (classifyLinkedInError err)
    else
      .errorEnvelope (classifyLinkedInError
        { message := "LinkedIn OAuth2 credentials are invalid, please re-authenticate"
          code := none })

end PA.LinkedIn

namespace PA.Facebook

/-- CLI arguments and environment variables feeding the Facebook
configuration (`configManager.getGeneralConfig` page-token fields). -/
structure FacebookEnv where
  cliPageAccessToken : Option String
  envPageAccessToken : Option String
  cliPageId : Option String
  envPageId : Option String
deriving DecidableEq, Repr

/-- Parsed `facebook-credentials.json` as written by the Facebook auth flow
and read by `loadFacebookTokens`. -/
structure FacebookCredsFile where
  access_token : Option String
  token_type : Option String
  expires_in : Option Int
  page_access_token : Option String
  page_id : Option String
deriving DecidableEq, Repr

/-- The configuration required by every Facebook tool call. -/
structure FacebookConfig where
  pageAccessToken : String
  pageId : String
deriving DecidableEq, Repr

/-- `getFacebookConfig` from src/src/tools/facebook.ts:
`process.env.FACEBOOK_PAGE_ACCESS_TOKEN || configManager.getGeneralConfig().facebookPageAccessToken`
(the latter is CLI arg || env var || ""), same for the page id; throws when
either is falsy. Note that this function consults no on-disk file: its type
takes only the environment. -/
def getFacebookConfig (e : FacebookEnv) : Except JsError FacebookConfig :=
  let pageAccessToken :=
    jsOrStr e.envPageAccessToken (getValue e.cliPageAccessToken e.envPageAccessToken)
  let pageId := jsOrStr e.envPageId (getValue e.cliPageId e.envPageId)
  if pageAccessToken == "" then
    .error { message := "FACEBOOK_PAGE_ACCESS_TOKEN is required. Set it in environment variables or config."
             code := none }
  else if pageId == "" then
    .error { message := "FACEBOOK_PAGE_ID is required. Set it in environment variables or config."
             code := none }
  else
    .ok { pageAccessToken := pageAccessToken, pageId := pageId }

/-- `loadFacebookTokens` from src/src/oauth/providers/facebook.ts: `null` when
the file is absent or fails to parse (the parse is inside `try`), else the
parsed record. -/
def loadFacebookTokens (credsFile : JFile FacebookCredsFile) :
    Option FacebookCredsFile :=
  match credsFile with
  | .absent => none
  | .malformed _ => none
  | .ok tokenData => some tokenData

/-- `isFacebookOAuthConfigured` from facebook.ts:
`tokens !== null && !!tokens.page_access_token && !!tokens.page_id`. -/
def isFacebookOAuthConfigured (credsFile : JFile FacebookCredsFile) : Bool :=
  match loadFacebookTokens credsFile with
  | none => false
  | some tokens => truthyS tokens.page_access_token && truthyS tokens.page_id

end PA.Facebook

namespace PA

/-- C1: at the empty state (no call-scoped override, no environment
variables, no on-disk files), Google credential resolution does NOT return
null: `createOAuth2Client` returns a client whose clientId and clientSecret
are undefined and whose credentials object is empty, and the tool wrapper
consequently fails with the invalid-credentials (re-authenticate) envelope
instead of the could-not-be-created one. LinkedIn, by contrast, resolves to
null as the claim requires. -/
theorem google_empty_state_client_not_null :
    Google.createOAuth2Client none ⟨none, none, none, none, none, none⟩ .absent .absent 3000 =
      some ⟨none, none, "http://localhost:3000/oauth2callback", some ⟨none, none, none⟩⟩ ∧
    Google.createOAuth2Client none ⟨none, none, none, none, none, none⟩ .absent .absent 3000 ≠
      none ∧
    Google.gmailHandleTool none ⟨none, none, none, none, none, none⟩ .absent .absent 3000 0
      (.error "refresh never attempted") "google-credentials.json" (.ok "unreached") =
      .errorEnvelope "Tool execution failed: OAuth2 credentials are invalid, please re-authenticate" ∧
    Google.gmailHandleTool none ⟨none, none, none, none, none, none⟩ .absent .absent 3000 0
      (.error "refresh never attempted") "google-credentials.json" (.ok "unreached") ≠
      .errorEnvelope "Tool execution failed: OAuth2 client could not be created, please check your credentials" ∧
    LinkedIn.createLinkedInOAuth2Client none ⟨none, none, none, none, none, none, none, none⟩
      .absent .absent 3000 = .ok none := by
  decide

/-- C2: `validateCredentials` reports Valid without performing any refresh or
write exactly when the client holds credentials whose `expiry_date` is
present and strictly in the future; an absent (or falsy) expiry, or one at or
before the current time, is never treated as valid without refresh. -/
theorem google_valid_without_refresh_iff (c : Google.OAuth2Client) (now : Int)
    (refreshResult : Except String Google.Credentials) (credsPath : String)
    (hnow : 0 ≤ now) :
    ((Google.validateCredentials c now refreshResult credsPath).1 = true ∧
        (Google.validateCredentials c now refreshResult credsPath).2.2 = []) ↔
      ∃ creds e, c.credentials = some creds ∧ creds.expiry_date = some e ∧ now < e := by
  obtain ⟨cid, cs, ru, cr⟩ := c
  cases cr with
  | none => simp [Google.validateCredentials]
  | some creds =>
    obtain ⟨rt, atk, ed⟩ := creds
    cases ed with
    | none =>
      cases hrt : truthyS rt <;> cases refreshResult <;>
        simp [Google.validateCredentials, hrt]
    | some e =>
      by_cases h0 : e = 0
      · subst h0
        cases hrt : truthyS rt <;> cases refreshResult <;>
          simp [Google.validateCredentials, hrt] <;> try omega
      · by_cases hle : e ≤ now
        · cases hrt : truthyS rt <;> cases refreshResult <;>
            simp [Google.validateCredentials, hrt, h0, hle] <;> try omega
        · simp [Google.validateCredentials, h0, hle]
          omega

/-- C2 witness: a client whose expiry is strictly in the future is Valid with
no effects. -/
theorem google_valid_without_refresh_iff_witness :
    ((Google.validateCredentials ⟨none, none, "", some ⟨none, none, some 10⟩⟩ 5
        (.error "no refresh") "p").1 = true ∧
      (Google.validateCredentials ⟨none, none, "", some ⟨none, none, some 10⟩⟩ 5
        (.error "no refresh") "p").2.2 = []) ↔
      ∃ creds e, (Google.OAuth2Client.credentials ⟨none, none, "", some ⟨none, none, some 10⟩⟩) =
          some creds ∧ creds.expiry_date = some e ∧ (5 : Int) < e :=
  google_valid_without_refresh_iff ⟨none, none, "", some ⟨none, none, some 10⟩⟩ 5
    (.error "no refresh") "p" (by decide)

/-- C3: when the expiry is absent or not in the future and a refresh token is
present and the token-endpoint exchange succeeds, `validateCredentials`
performs exactly one refresh call, writes the new tokens to the credentials
file, updates the client's in-memory credentials, and returns true. -/
theorem google_refresh_success_persists (c : Google.OAuth2Client) (now : Int)
    (tokens : Google.Credentials) (credsPath : String) (creds : Google.Credentials)
    (hc : c.credentials = some creds)
    (hexp : creds.expiry_date = none ∨ ∃ e, creds.expiry_date = some e ∧ e ≤ now)
    (hrt : truthyS creds.refresh_token = true) :
    Google.validateCredentials c now (.ok tokens) credsPath =
      (true, { c with credentials := some tokens },
        [.refreshCall, .fileWrite credsPath tokens]) := by
  rcases hexp with h | ⟨e, he, hle⟩
  · simp [Google.validateCredentials, hc, h, hrt]
  · simp [Google.validateCredentials, hc, he, hrt, hle]

/-- C3 witness: an expired credential with a refresh token and a successful
exchange yields exactly one refresh, one file write of the new tokens, an
updated client, and true. -/
theorem google_refresh_success_persists_witness :
    Google.validateCredentials ⟨none, none, "", some ⟨some "rt", none, some 3⟩⟩ 7
      (.ok ⟨some "rt", some "new", some 99⟩) "google-credentials.json" =
      (true, ⟨none, none, "", some ⟨some "rt", some "new", some 99⟩⟩,
        [.refreshCall, .fileWrite "google-credentials.json" ⟨some "rt", some "new", some 99⟩]) :=
  google_refresh_success_persists ⟨none, none, "", some ⟨some "rt", none, some 3⟩⟩ 7
    ⟨some "rt", some "new", some 99⟩ "google-credentials.json" ⟨some "rt", none, some 3⟩
    rfl (Or.inr ⟨3, rfl, by decide⟩) rfl

/-- C4: when the expiry is absent or not in the future and no refresh token
is present, `validateCredentials` returns false with no effects — no
token-endpoint exchange and no file write happen, whatever the exchange
oracle would have answered. -/
theorem google_expired_no_refresh_token (c : Google.OAuth2Client) (now : Int)
    (refreshResult : Except String Google.Credentials) (credsPath : String)
    (creds : Google.Credentials)
    (hc : c.credentials = some creds)
    (hexp : creds.expiry_date = none ∨ ∃ e, creds.expiry_date = some e ∧ e ≤ now)
    (hrt : truthyS creds.refresh_token = false) :
    Google.validateCredentials c now refreshResult credsPath = (false, c, []) := by
  rcases hexp with h | ⟨e, he, hle⟩
  · simp [Google.validateCredentials, hc, h, hrt]
  · simp [Google.validateCredentials, hc, he, hrt, hle]

/-- C4 witness: an expired credential with no refresh token is invalid with
an empty effect trace. -/
theorem google_expired_no_refresh_token_witness :
    Google.validateCredentials ⟨none, none, "", some ⟨none, none, some 3⟩⟩ 7
      (.ok ⟨some "rt", some "new", some 99⟩) "p" =
      (false, ⟨none, none, "", some ⟨none, none, some 3⟩⟩, []) :=
  google_expired_no_refresh_token ⟨none, none, "", some ⟨none, none, some 3⟩⟩ 7
    (.ok ⟨some "rt", some "new", some 99⟩) "p" ⟨none, none, some 3⟩
    rfl (Or.inr ⟨3, rfl, by decide⟩) rfl

/-- C5: Google credential resolution is whole-tuple per source: any tuple it
produces is either exactly the env/override-based tuple, or (when that source
lacks the minimum fields) exactly the file-based tuple — never a mixture.
(That `getEnvBasedCredentials` reads no file state and
`getFileBasedCredentials` reads no override/environment state is visible in
their types.) -/
theorem google_whole_tuple_resolution (qc : Option Google.GoogleQueryConfig)
    (e : Google.GoogleEnv) (keys : JFile Google.GoogleKeysFile)
    (credsFile : JFile Google.GoogleCredsFile) (t : Google.GoogleCreds)
    (h : Google.resolveGoogleCredentials qc e keys credsFile = .ok (some t)) :
    Google.getEnvBasedCredentials qc e = some t ∨
      (Google.getEnvBasedCredentials qc e = none ∧
        Google.getFileBasedCredentials keys credsFile = .ok (some t)) := by
  unfold Google.resolveGoogleCredentials at h
  cases henv : Google.getEnvBasedCredentials qc e with
  | some c =>
    rw [henv] at h
    simp only [Except.ok.injEq, Option.some.injEq] at h
    exact Or.inl (by rw [h])
  | none =>
    rw [henv] at h
    exact Or.inr ⟨rfl, h⟩

/-- C5 witness: with a complete environment tuple and files present, the
resolved tuple is the environment tuple as a whole. -/
theorem google_whole_tuple_resolution_witness :
    Google.getEnvBasedCredentials none ⟨some "id", none, some "sec", none, some "rt", none⟩ =
        some ⟨some "id", some "sec", some "rt"⟩ ∨
      (Google.getEnvBasedCredentials none ⟨some "id", none, some "sec", none, some "rt", none⟩ =
          none ∧
        Google.getFileBasedCredentials (.ok ⟨some "fid", some "fsec", none, none⟩)
          (.ok ⟨some "frt"⟩) = .ok (some ⟨some "id", some "sec", some "rt"⟩)) :=
  google_whole_tuple_resolution none ⟨some "id", none, some "sec", none, some "rt", none⟩
    (.ok ⟨some "fid", some "fsec", none, none⟩) (.ok ⟨some "frt"⟩)
    ⟨some "id", some "sec", some "rt"⟩ (by decide)

/-- C6: LinkedIn validation returns true exactly when the credentials file
exists, parses, and holds a truthy (non-empty) `access_token`; its effect
trace is always empty — it performs no expiry check and no refresh exchange,
and read/parse failures yield false rather than an exception. -/
theorem linkedin_validate_access_token_iff {α : Type} (oauth2Client : α)
    (credsFile : JFile LinkedIn.LinkedInCredsFile) :
    ((LinkedIn.validateLinkedInCredentials oauth2Client credsFile).1 = true ↔
        ∃ credentials, credsFile = .ok credentials ∧
          truthyS credentials.access_token = true) ∧
      (LinkedIn.validateLinkedInCredentials oauth2Client credsFile).2 = [] := by
  cases credsFile <;> simp [LinkedIn.validateLinkedInCredentials]

/-- C7 counterexample: an operation error carrying HTTP 403 whose body
mentions insufficient_scope is classified by both the LinkedIn and the Gmail
wrapper as an authentication failure (re-authenticate), not as a
scope-naming permission envelope. -/
theorem scope_403_classified_as_auth_failure :
    LinkedIn.linkedinHandleTool none ⟨none, some "cid", none, some "csec", none, none, none, none⟩
      .absent (.ok ⟨some "tok", none, none, none⟩) 3000
      (.error ⟨"insufficient_scope: request requires higher privileges", some 403⟩) =
      .errorEnvelope "Authentication failed: insufficient_scope: request requires higher privileges. Please re-authenticate by running: npx @softleolabs/pa-mcp linkedin-auth" ∧
    strContains "Authentication failed: insufficient_scope: request requires higher privileges. Please re-authenticate by running: npx @softleolabs/pa-mcp linkedin-auth" "w_member_social" = false ∧
    Google.gmailHandleTool none ⟨none, some "gid", none, some "gsec", none, some "grt"⟩
      .absent .absent 3000 1000 (.ok ⟨some "grt", some "atok", some 99999⟩)
      "google-credentials.json"
      (.error ⟨"insufficient_scope: request requires higher privileges", some 403⟩) =
      .errorEnvelope "Authentication failed: insufficient_scope: request requires higher privileges. Please re-authenticate by running: npx @softleolabs/pa-mcp auth" := by
  decide

/-- C7 (amended): the LinkedIn wrapper emits the scope-naming permission
envelope only for errors with no 401/403 code and no authentication
substrings in the message; any error carrying code 403 — even one whose
message mentions insufficient_scope — is classified as an authentication
failure by the LinkedIn wrapper and by the Gmail/Calendar wrapper (which has
no scope branch at all). -/
theorem linkedin_scope_envelope_conditions (err : JsError)
    (hg : strContains err.message "invalid_grant" = false)
    (hr : strContains err.message "refresh_token" = false)
    (hic : strContains err.message "invalid_client" = false)
    (huc : strContains err.message "unauthorized_client" = false)
    (h401 : (err.code == some 401) = false)
    (h403 : (err.code == some 403) = false)
    (hs : strContains err.message "insufficient_scope" = true)
    (err403 : JsError) (hcode : err403.code = some 403) :
    LinkedIn.classifyLinkedInError err =
      "LinkedIn scope permission denied: " ++ err.message ++
        ". Please ensure your LinkedIn app has the required OAuth 2.0 scopes approved: r_basicprofile, w_member_social, r_organization_social, w_organization_social" ∧
    LinkedIn.classifyLinkedInError err403 =
      "Authentication failed: " ++ err403.message ++
        ". Please re-authenticate by running: npx @softleolabs/pa-mcp linkedin-auth" ∧
    Google.classifyGmailError err403 =
      "Authentication failed: " ++ err403.message ++
        ". Please re-authenticate by running: npx @softleolabs/pa-mcp auth" := by
  refine ⟨?_, ?_, ?_⟩
  · simp [LinkedIn.classifyLinkedInError, hg, hr, hic, huc, h401, h403, hs]
  · simp [LinkedIn.classifyLinkedInError, hcode]
  · simp [Google.classifyGmailError, hcode]

/-- C7 amended witness: a code-less insufficient_scope error gets the
scope-naming envelope; a 403 error gets the authentication envelope from both
wrappers. -/
theorem linkedin_scope_envelope_conditions_witness :
    LinkedIn.classifyLinkedInError ⟨"insufficient_scope", none⟩ =
      "LinkedIn scope permission denied: " ++ "insufficient_scope" ++
        ". Please ensure your LinkedIn app has the required OAuth 2.0 scopes approved: r_basicprofile, w_member_social, r_organization_social, w_organization_social" ∧
    LinkedIn.classifyLinkedInError ⟨"forbidden", some 403⟩ =
      "Authentication failed: " ++ "forbidden" ++
        ". Please re-authenticate by running: npx @softleolabs/pa-mcp linkedin-auth" ∧
    Google.classifyGmailError ⟨"forbidden", some 403⟩ =
      "Authentication failed: " ++ "forbidden" ++
        ". Please re-authenticate by running: npx @softleolabs/pa-mcp auth" :=
  linkedin_scope_envelope_conditions ⟨"insufficient_scope", none⟩
    (by decide) (by decide) (by decide) (by decide) (by decide) (by decide) (by decide)
    ⟨"forbidden", some 403⟩ rfl

/-- C8: with `facebook-credentials.json` holding a page access token and page
id and no `FACEBOOK_*` environment variables or CLI overrides,
`loadFacebookTokens`/`isFacebookOAuthConfigured` do find a usable page token,
but `getFacebookConfig` — the only resolution the Facebook tools run, which
consults no file — throws its FACEBOOK_PAGE_ACCESS_TOKEN-required error, so
the tool call fails instead of using the file-based token. -/
theorem facebook_file_only_state_rejected :
    Facebook.loadFacebookTokens (.ok ⟨none, none, none, some "tok", some "123"⟩) =
      some ⟨none, none, none, some "tok", some "123"⟩ ∧
    Facebook.isFacebookOAuthConfigured (.ok ⟨none, none, none, some "tok", some "123"⟩) =
      true ∧
    Facebook.getFacebookConfig ⟨none, none, none, none⟩ =
      .error ⟨"FACEBOOK_PAGE_ACCESS_TOKEN is required. Set it in environment variables or config.", none⟩ := by
  decide

/-- C9 counterexample: with no environment credentials and a malformed
`linkedin-oauth.keys.json`, the LinkedIn resolver throws the raw parse error
(it neither returns null nor a could-not-create-client failure), and the tool
envelope carries the raw parse message. -/
theorem linkedin_malformed_keys_raw_parse_message :
    LinkedIn.createLinkedInOAuth2Client none ⟨none, none, none, none, none, none, none, none⟩
      (.malformed "Unexpected end of JSON input") .absent 3000 =
      .error "Unexpected end of JSON input" ∧
    LinkedIn.linkedinHandleTool none ⟨none, none, none, none, none, none, none, none⟩
      (.malformed "Unexpected end of JSON input") .absent 3000 (.ok "unreached") =
      .errorEnvelope "Tool execution failed: Unexpected end of JSON input" ∧
    ToolOutcome.errorEnvelope "Tool execution failed: Unexpected end of JSON input" ≠
      .errorEnvelope "Tool execution failed: LinkedIn OAuth2 client could not be created, please check your credentials" := by
  decide

/-- C9 (amended): for Google a malformed keys or credentials file is caught
inside `createOAuth2Client`, which returns null, and the wrapper fails with
the could-not-be-created envelope; for LinkedIn a malformed keys file (when
the environment yields no tuple) throws out of the resolver, and the wrapper
catches it and surfaces the raw parse message through its error
classification instead of the could-not-create-client failure. -/
theorem malformed_json_resolution_behavior (qc : Option Google.GoogleQueryConfig)
    (e : Google.GoogleEnv) (m : String) (credsFile : JFile Google.GoogleCredsFile)
    (k : Google.GoogleKeysFile) (oauthPort : Nat) (now : Int)
    (refreshResult : Except String Google.Credentials) (credsPath : String)
    (api : Except JsError String) (qcL : Option LinkedIn.LinkedInQueryConfig)
    (eL : LinkedIn.LinkedInEnv) (credsFileL : JFile LinkedIn.LinkedInCredsFile)
    (apiL : Except JsError String)
    (henv : Google.getEnvBasedCredentials qc e = none)
    (henvL : LinkedIn.getEnvBasedCredentials qcL eL = none) :
    Google.createOAuth2Client qc e (.malformed m) credsFile oauthPort = none ∧
    Google.createOAuth2Client qc e (.ok k) (.malformed m) oauthPort = none ∧
    Google.gmailHandleTool qc e (.malformed m) credsFile oauthPort now refreshResult
        credsPath api =
      .errorEnvelope "Tool execution failed: OAuth2 client could not be created, please check your credentials" ∧
    LinkedIn.createLinkedInOAuth2Client qcL eL (.malformed m) credsFileL oauthPort =
      .error m ∧
    LinkedIn.linkedinHandleTool qcL eL (.malformed m) credsFileL oauthPort apiL =
      .errorEnvelope (LinkedIn.classifyLinkedInError ⟨m, none⟩) := by
  have h1 : Google.createOAuth2Client qc e (.malformed m) credsFile oauthPort = none := by
    simp [Google.createOAuth2Client, Google.resolveGoogleCredentials, henv,
      Google.getFileBasedCredentials]
  have h2 : Google.createOAuth2Client qc e (.ok k) (.malformed m) oauthPort = none := by
    simp [Google.createOAuth2Client, Google.resolveGoogleCredentials, henv,
      Google.getFileBasedCredentials]
  have h4 : LinkedIn.createLinkedInOAuth2Client qcL eL (.malformed m) credsFileL oauthPort =
      .error m := by
    simp [LinkedIn.createLinkedInOAuth2Client, henvL, LinkedIn.getFileBasedCredentials]
  refine ⟨h1, h2, ?_, h4, ?_⟩
  · simp [Google.gmailHandleTool, h1]
    decide
  · simp [LinkedIn.linkedinHandleTool, h4]

/-- C9 amended witness: concrete empty environments and a malformed keys
file. -/
theorem malformed_json_resolution_behavior_witness :
    Google.createOAuth2Client none ⟨none, none, none, none, none, none⟩ (.malformed "bad json")
        .absent 3000 = none ∧
    Google.createOAuth2Client none ⟨none, none, none, none, none, none⟩
        (.ok ⟨none, none, none, none⟩) (.malformed "bad json") 3000 = none ∧
    Google.gmailHandleTool none ⟨none, none, none, none, none, none⟩ (.malformed "bad json")
        .absent 3000 0 (.error "no refresh") "p" (.ok "unreached") =
      .errorEnvelope "Tool execution failed: OAuth2 client could not be created, please check your credentials" ∧
    LinkedIn.createLinkedInOAuth2Client none ⟨none, none, none, none, none, none, none, none⟩
        (.malformed "bad json") .absent 3000 = .error "bad json" ∧
    LinkedIn.linkedinHandleTool none ⟨none, none, none, none, none, none, none, none⟩
        (.malformed "bad json") .absent 3000 (.ok "unreached") =
      .errorEnvelope (LinkedIn.classifyLinkedInError ⟨"bad json", none⟩) :=
  malformed_json_resolution_behavior none ⟨none, none, none, none, none, none⟩ "bad json"
    .absent ⟨none, none, none, none⟩ 3000 0 (.error "no refresh") "p" (.ok "unreached")
    none ⟨none, none, none, none, none, none, none, none⟩ .absent (.ok "unreached")
    (by decide) (by decide)

/-- C10: `validateLinkedInCredentials` is independent of its client argument:
for any two clients (of any types, built from any overrides) and the same
on-disk credentials file state it returns the same result. -/
theorem linkedin_validate_ignores_client {α β : Type} (c1 : α) (c2 : β)
    (credsFile : JFile LinkedIn.LinkedInCredsFile) :
    LinkedIn.validateLinkedInCredentials c1 credsFile =
      LinkedIn.validateLinkedInCredentials c2 credsFile := rfl

end PA
